import Mathlib

/-!
Verification development for the Transport-Delay-Predictor data pipeline
(src/ml_pipeline/src/data_cleaning.py and feature_engineering.py).

The pipeline is shallowly embedded: a pandas DataFrame becomes a list of
records, a NaN/NaT cell becomes `Option.none`, numeric cells are rationals,
and each cleaning stage becomes a pure function translated statement by
statement from the Python source.  Library calls (pandas `to_datetime`,
`strptime`, `re`, `quantile`, `mode`, `median`, `clip`, float parsing)
are modelled explicitly below, restricted to the value shapes this
pipeline feeds them.
-/

/- Rational arithmetic must evaluate inside `decide` proofs about concrete
tables, so the library's rational operations are made unfoldable here. -/
attribute [local semireducible] Rat.add Rat.sub Rat.mul Rat.inv

/-! ## Character and digit utilities -/

/-- Numeric value of a decimal digit character. -/
def digitVal (c : Char) : ℕ := c.toNat - 48

/-- The decimal digit character for a value below ten (strftime zero padding
uses these). -/
def digitCh : ℕ → Char
  | 0 => '0' | 1 => '1' | 2 => '2' | 3 => '3' | 4 => '4'
  | 5 => '5' | 6 => '6' | 7 => '7' | 8 => '8' | _ => '9'

/-- Value of a digit string, most significant first (Python `int`). -/
def natOfDigits (ds : List Char) : ℕ := ds.foldl (fun a c => 10 * a + digitVal c) 0

/-- Whitespace for Python `str.strip`. -/
def pySpace (c : Char) : Bool := c = ' ' || c = '\t' || c = '\n' || c = '\r'

/-- Python `str.strip()`: drop whitespace from both ends. -/
def pyStrip (cs : List Char) : List Char :=
  ((cs.dropWhile pySpace).reverse.dropWhile pySpace).reverse

/-- Python substring containment `needle in hay`. -/
def strContains (hay needle : List Char) : Bool :=
  match hay with
  | [] => needle.isEmpty
  | _ :: t => needle.isPrefixOf hay || strContains t needle

/-- ASCII lower-casing of one character (the data here is ASCII, where
Python `str.lower` agrees). -/
def charLower (c : Char) : Char :=
  if 'A' ≤ c && c ≤ 'Z' then Char.ofNat (c.toNat + 32) else c

/-- Python `str.lower()` on the character list. -/
def pyLower (cs : List Char) : List Char := cs.map charLower

/-- Executable maximum on rationals (also models Python `max` on two
non-NaN floats). -/
def qmax (a b : ℚ) : ℚ := if a ≤ b then b else a

/-- Executable minimum on rationals. -/
def qmin (a b : ℚ) : ℚ := if a ≤ b then a else b

/-- Executable floor of a rational. -/
def qfloor (x : ℚ) : ℤ := x.num / (x.den : ℤ)

/-! ## Calendar arithmetic

The Gregorian data needed to model `datetime` / pandas `Timestamp`
validation, formatting and epoch arithmetic. -/

/-- Gregorian leap-year test. -/
def isLeap (y : ℕ) : Bool := y % 4 = 0 && (y % 100 ≠ 0 || y % 400 = 0)

/-- Month lengths, January first. -/
def monthLens (leap : Bool) : List ℕ :=
  [31, if leap then 29 else 28, 31, 30, 31, 30, 31, 31, 30, 31, 30, 31]

/-- Length of month `m` (1-12) in year `y`. -/
def monthLen (y m : ℕ) : ℕ := (monthLens (isLeap y)).getD (m - 1) 0

/-- Days in a Gregorian year. -/
def daysInYear (y : ℕ) : ℕ := if isLeap y then 366 else 365

/-- A wall-clock instant as `datetime`/`Timestamp` carry it (no time zone in
this pipeline, sub-second part discarded by `strftime`). -/
structure DT where
  year : ℕ
  month : ℕ
  day : ℕ
  hour : ℕ
  minute : ℕ
  second : ℕ
deriving DecidableEq, Repr

/-- Field validity enforced by `datetime` construction (and by the pandas
parsers before they return): year within `MINYEAR..9999`, real calendar
date, in-range time. -/
def ValidDT (d : DT) : Bool :=
  1 ≤ d.year && d.year ≤ 9999 && 1 ≤ d.month && d.month ≤ 12 &&
  1 ≤ d.day && d.day ≤ monthLen d.year d.month &&
  d.hour ≤ 23 && d.minute ≤ 59 && d.second ≤ 59

/-- Two zero-padded digits (strftime `%m %d %H %M %S`). -/
def pad2L (n : ℕ) : List Char := [digitCh (n / 10), digitCh (n % 10)]

/-- Four digits, the rendering of a year in 1000..9999. -/
def pad4L (n : ℕ) : List Char :=
  [digitCh (n / 1000), digitCh (n / 100 % 10), digitCh (n / 10 % 10), digitCh (n % 10)]

/-- strftime `%Y` as CPython delegates it to glibc: the year in plain
decimal with NO zero padding, so year 999 prints as `999`, not `0999`
(`datetime` years lie in 1..9999, so four digits is the maximum). -/
def yearChL (y : ℕ) : List Char :=
  if y < 10 then [digitCh y]
  else if y < 100 then [digitCh (y / 10), digitCh (y % 10)]
  else if y < 1000 then [digitCh (y / 100), digitCh (y / 10 % 10), digitCh (y % 10)]
  else pad4L y

/-- `dt.strftime` with the pipeline's single output format; only the year
field can fall short of the canonical fixed width. -/
def formatDTList (d : DT) : List Char :=
  yearChL d.year ++ '-' :: (pad2L d.month ++ '-' :: (pad2L d.day ++
  ' ' :: (pad2L d.hour ++ ':' :: (pad2L d.minute ++ ':' :: pad2L d.second))))

/-- The timestamp string the cleaner writes back (canonical exactly when
the year has four digits). -/
def formatDT (d : DT) : String := String.mk (formatDTList d)

/-- Days from 1970-01-01 to year/month/day (sign carried in `ℤ`), the
arithmetic behind `Timestamp.timestamp()`. -/
def daysFromCivil (y m d : ℕ) : ℤ :=
  let y' : ℕ := if m ≤ 2 then y - 1 else y
  let era : ℕ := y' / 400
  let yoe : ℕ := y' % 400
  let mp : ℕ := (m + 9) % 12
  let doy : ℕ := (153 * mp + 2) / 5 + d - 1
  let doe : ℕ := yoe * 365 + yoe / 4 - yoe / 100 + doy
  (era : ℤ) * 146097 + (doe : ℤ) - 719468

/-- Unix epoch seconds of an instant, as `Timestamp.timestamp()` returns
for the naive timestamps this pipeline builds. -/
def epochDT (d : DT) : ℤ :=
  86400 * daysFromCivil d.year d.month d.day +
  3600 * (d.hour : ℤ) + 60 * (d.minute : ℤ) + (d.second : ℤ)

/-! ## Timestamp parsing

`DataCleaner._parse_timestamp` tries four parsers in order.  Stage 1
(`pd.to_datetime` on a string) is modelled by the ISO-like subset that this
pipeline's data exercises: a four-digit year, `-` or `/` separators, and an
optional ` HH:MM:SS` tail.  Numeric fields of one or two digits are read
greedily, which for these grammars agrees with `strptime`'s regexes because
every numeric field is followed by a non-digit or the end of the input and
out-of-range values are rejected by validation. -/

/-- Build an instant, enforcing the validation `datetime`/`Timestamp`
perform (a `ValueError`/`OutOfBoundsDatetime` becomes `none`). -/
def mkDT? (y mo d h mi s : ℕ) : Option DT :=
  if ValidDT ⟨y, mo, d, h, mi, s⟩ then some ⟨y, mo, d, h, mi, s⟩ else none

/-- Read exactly four digits. -/
def parse4 : List Char → Option (ℕ × List Char)
  | a :: b :: c :: d :: rest =>
    if a.isDigit && b.isDigit && c.isDigit && d.isDigit then
      some (natOfDigits [a, b, c, d], rest)
    else none
  | _ => none

/-- Read one or two digits, greedily. -/
def parse1or2 : List Char → Option (ℕ × List Char)
  | [] => none
  | [a] => if a.isDigit then some (digitVal a, []) else none
  | a :: b :: rest =>
    if a.isDigit then
      if b.isDigit then some (10 * digitVal a + digitVal b, rest)
      else some (digitVal a, b :: rest)
    else none

/-- Consume one expected literal character. -/
def expectCh (c : Char) : List Char → Option (List Char)
  | x :: rest => if x = c then some rest else none
  | [] => none

/-- Read `HH:MM:SS` and require the input to end there. -/
def parseHMSAll (cs : List Char) : Option (ℕ × ℕ × ℕ) :=
  (parse1or2 cs).bind fun hp =>
  (expectCh ':' hp.2).bind fun r2 =>
  (parse1or2 r2).bind fun mp =>
  (expectCh ':' mp.2).bind fun r4 =>
  (parse1or2 r4).bind fun sp =>
  if sp.2 = [] then some (hp.1, mp.1, sp.1) else none

/-- Read `YYYY sep MM sep DD` with a fixed separator. -/
def parseYmdCore (sep : Char) (cs : List Char) : Option (ℕ × ℕ × ℕ × List Char) :=
  (parse4 cs).bind fun yp =>
  (expectCh sep yp.2).bind fun r2 =>
  (parse1or2 r2).bind fun mp =>
  (expectCh sep mp.2).bind fun r4 =>
  (parse1or2 r4).map fun dp => (yp.1, mp.1, dp.1, dp.2)

/-- After a date: either end of input (midnight) or a space and a time. -/
def flexTail (y mo d : ℕ) : List Char → Option DT
  | [] => mkDT? y mo d 0 0 0
  | ' ' :: r => (parseHMSAll r).bind fun q => mkDT? y mo d q.1 q.2.1 q.2.2
  | _ => none

/-- Flexible parse with one separator choice. -/
def parseFlexWith (sep : Char) (cs : List Char) : Option DT :=
  (parseYmdCore sep cs).bind fun p => flexTail p.1 p.2.1 p.2.2.1 p.2.2.2

/-- The pandas `Timestamp` range check performed by `pd.to_datetime`: the
result must fit the signed 64-bit nanosecond counter, which at the
whole-second resolution of these parses means epoch seconds within
plus-minus 9223372036; outside that an `OutOfBoundsDatetime` is raised,
which the bare `except` turns into failure (`none`). -/
def tsBound (dt : DT) : Option DT :=
  if -9223372036 ≤ epochDT dt ∧ epochDT dt ≤ 9223372036 then some dt else none

/-- Stage 1: the `pd.to_datetime(value_str)` subset described above,
subject to the `Timestamp` range. -/
def parseFlexList (cs : List Char) : Option DT :=
  (parseFlexWith '-' cs <|> parseFlexWith '/' cs).bind tsBound

/-! Stage 2: a numeric-only string taken as Unix epoch seconds. -/

/-- `value_str.replace('.', '').replace('-', '')`. -/
def stripDotDash (cs : List Char) : List Char :=
  cs.filter (fun c => !(c = '.' || c = '-'))

/-- Python `str.isdigit` over the ASCII data this pipeline carries. -/
def pyIsdigit (cs : List Char) : Bool := !cs.isEmpty && cs.all Char.isDigit

/-- Fractional digits after the decimal point. -/
def fracVal (ds : List Char) : ℚ := (natOfDigits ds : ℚ) / (10 : ℚ) ^ ds.length

/-- Unsigned Python `float(...)` literal over digits and one optional dot
(the only shapes that reach it here; anything else raises, i.e. `none`). -/
def pyFloatCore (cs : List Char) : Option ℚ :=
  let ip := cs.takeWhile Char.isDigit
  match cs.dropWhile Char.isDigit with
  | [] => if ip.isEmpty then none else some (natOfDigits ip)
  | '.' :: fr =>
    if fr.all Char.isDigit && !(ip.isEmpty && fr.isEmpty) then
      some ((natOfDigits ip : ℚ) + fracVal fr)
    else none
  | _ => none

/-- Python `float(...)` with an optional leading minus sign. -/
def pyFloat? : List Char → Option ℚ
  | '-' :: rest => (pyFloatCore rest).map Neg.neg
  | cs => pyFloatCore cs

/-- Split epoch days upward from 1970, returning year and day-of-year. -/
def splitYearUp : ℕ → ℕ → ℕ → ℕ × ℕ
  | 0, y, d => (y, d)
  | f + 1, y, d => if d < daysInYear y then (y, d) else splitYearUp f (y + 1) (d - daysInYear y)

/-- Split a backward day deficit (positive) downward from 1970. -/
def splitYearDown : ℕ → ℕ → ℕ → ℕ × ℕ
  | 0, y, _ => (y, 0)
  | f + 1, y, deficit =>
    if deficit ≤ daysInYear (y - 1) then (y - 1, daysInYear (y - 1) - deficit)
    else splitYearDown f (y - 1) (deficit - daysInYear (y - 1))

/-- Turn a day-of-year into month and day given the month lengths. -/
def splitMonthGo : List ℕ → ℕ → ℕ → ℕ × ℕ
  | [], m, d => (m, d + 1)
  | L :: ls, m, d => if d < L then (m, d + 1) else splitMonthGo ls (m + 1) (d - L)

/-- Month and day-of-month from a day-of-year. -/
def splitMonth (leap : Bool) (doy : ℕ) : ℕ × ℕ := splitMonthGo (monthLens leap) 1 doy

/-- Year and day-of-year of an epoch day number. -/
def epochYd (days : ℤ) : ℕ × ℕ :=
  if 0 ≤ days then splitYearUp 400 1970 days.toNat
  else splitYearDown 400 1970 (-days).toNat

/-- `pd.to_datetime(seconds, unit='s')` on an in-range epoch value
(`strftime` later discards the sub-second part, so the floor is taken). -/
def secsToDT (q : ℚ) : DT :=
  let z : ℤ := qfloor q
  let sod : ℕ := (Int.emod z 86400).toNat
  let yd : ℕ × ℕ := epochYd (Int.ediv z 86400)
  let md : ℕ × ℕ := splitMonth (isLeap yd.1) yd.2
  ⟨yd.1, md.1, md.2, sod / 3600, sod % 3600 / 60, sod % 60⟩

/-- Stage 2: the digits-only check, `float`, and the epoch conversion.
Pandas raises `OutOfBoundsDatetime` outside the `Timestamp` range (about
(-2^63, 2^63) nanoseconds); the bare `except` turns that into failure. -/
def unixStage (cs : List Char) : Option DT :=
  if pyIsdigit (stripDotDash cs) then
    match pyFloat? cs with
    | some q =>
      if decide (-9223372036 ≤ q) && decide (q ≤ 9223372036) then some (secsToDT q)
      else none
    | none => none
  else none

/-! Stage 3: the fixed `strptime` format list. -/

/-- `%Y sep %m sep %d %H:%M:%S`, matching the whole string. -/
def fmtYmdHms (sep : Char) (cs : List Char) : Option DT :=
  (parseYmdCore sep cs).bind fun p =>
    match p.2.2.2 with
    | ' ' :: r =>
      (parseHMSAll r).bind fun q => mkDT? p.1 p.2.1 p.2.2.1 q.1 q.2.1 q.2.2
    | _ => none

/-- Read `DD sep MM sep YYYY`. -/
def parseDmyCore (sep : Char) (cs : List Char) : Option (ℕ × ℕ × ℕ × List Char) :=
  (parse1or2 cs).bind fun dp =>
  (expectCh sep dp.2).bind fun r2 =>
  (parse1or2 r2).bind fun mp =>
  (expectCh sep mp.2).bind fun r4 =>
  (parse4 r4).map fun yp => (yp.1, mp.1, dp.1, yp.2)

/-- `%d sep %m sep %Y %H:%M:%S`, matching the whole string. -/
def fmtDmyHms (sep : Char) (cs : List Char) : Option DT :=
  (parseDmyCore sep cs).bind fun p =>
    match p.2.2.2 with
    | ' ' :: r =>
      (parseHMSAll r).bind fun q => mkDT? p.1 p.2.1 p.2.2.1 q.1 q.2.1 q.2.2
    | _ => none

/-- `%Y sep %m sep %d`, matching the whole string. -/
def fmtYmd (sep : Char) (cs : List Char) : Option DT :=
  (parseYmdCore sep cs).bind fun p =>
    if p.2.2.2 = [] then mkDT? p.1 p.2.1 p.2.2.1 0 0 0 else none

/-- Stage 3: the six explicit formats, in source order. -/
def formatsStage (cs : List Char) : Option DT :=
  fmtYmdHms '-' cs <|> fmtYmdHms '/' cs <|>
  fmtDmyHms '-' cs <|> fmtDmyHms '/' cs <|>
  fmtYmd '-' cs <|> fmtYmd '/' cs

/-! Stage 4: regex extraction of a date substring. -/

/-- A separator of the regex class dash-or-slash. -/
def isSepCh (c : Char) : Bool := c = '-' || c = '/'

/-- Trailing one-or-two-digit part of the pattern, greedy. -/
def dayPartRE : List Char → Option (List Char)
  | [] => none
  | [a] => if a.isDigit then some [a] else none
  | a :: b :: _ => if a.isDigit then (if b.isDigit then some [a, b] else some [a]) else none

/-- Month, separator and day of the pattern, with the greedy-then-backtrack
month width. -/
def monthDayRE : List Char → Option (List Char)
  | m1 :: m2 :: s :: rest =>
    if m1.isDigit && m2.isDigit && isSepCh s then
      (dayPartRE rest).map (fun ds => m1 :: m2 :: s :: ds)
    else if m1.isDigit && isSepCh m2 then
      (dayPartRE (s :: rest)).map (fun ds => m1 :: m2 :: ds)
    else none
  | _ => none

/-- The full pattern at the current position. -/
def matchDateRE : List Char → Option (List Char)
  | a :: b :: c :: d :: s :: rest =>
    if a.isDigit && b.isDigit && c.isDigit && d.isDigit && isSepCh s then
      (monthDayRE rest).map (fun md => a :: b :: c :: d :: s :: md)
    else none
  | _ => none

/-- `re.search`: leftmost position where the pattern matches. -/
def regexSearchDate : List Char → Option (List Char)
  | [] => none
  | c :: rest =>
    match matchDateRE (c :: rest) with
    | some m => some m
    | none => regexSearchDate rest

/-- Stage 4: extract a date substring, then `pd.to_datetime` it. -/
def regexStage (cs : List Char) : Option DT :=
  (regexSearchDate cs).bind parseFlexList

/-- The four stages of `_parse_timestamp`, first success wins. -/
def parseStages (cs : List Char) : Option DT :=
  parseFlexList cs <|> unixStage cs <|> formatsStage cs <|> regexStage cs

/-- `DataCleaner._parse_timestamp`: absent stays absent, otherwise strip
and run the stages; a surviving instant is printed canonically. -/
def parse_timestamp (v : Option String) : Option String :=
  match v with
  | none => none
  | some raw => (parseStages (pyStrip raw.toList)).map formatDT


/-! ## The data model

A DataFrame row.  `route_id` starts as raw data (number, text or NaN) and
is numeric after unification; the timestamp columns hold text or NaT;
`weather` holds text or NaN; the numeric columns hold a rational or NaN.
A raw numeric route value enters `str(value)` through its decimal
representation, carried by the `rint` constructor. -/

/-- A raw or unified cell of the `route_id` column. -/
inductive RVal where
  | rint : ℤ → RVal
  | rstr : String → RVal
  | rna : RVal
deriving DecidableEq, Repr

/-- One record of the table. -/
structure Row where
  route_id : RVal
  scheduled_time : Option String
  actual_time : Option String
  weather : Option String
  passenger_count : Option ℚ
  latitude : Option ℚ
  longitude : Option ℚ
  delay_minutes : Option ℚ := none
deriving DecidableEq, Repr

/-- A DataFrame: ordered rows. -/
abbrev Table := List Row

/-- The present (non-NaN) values of the `passenger_count` column. -/
def presentPC (t : Table) : List ℚ := t.filterMap (fun r => r.passenger_count)

/-- The present (non-NaN) values of the `weather` column. -/
def presentW (t : Table) : List String := t.filterMap (fun r => r.weather)

/-! ## Sorting, quantiles, mode

pandas `Series.quantile` sorts the non-NaN values and interpolates
linearly; `median()` is the 0.5 quantile; `mode()` returns the most
frequent values sorted, from which the code takes element 0. -/

/-- Insert into a sorted list of rationals. -/
def insertQ (x : ℚ) : List ℚ → List ℚ
  | [] => [x]
  | y :: ys => if x ≤ y then x :: y :: ys else y :: insertQ x ys

/-- Insertion sort for rationals. -/
def sortQ : List ℚ → List ℚ
  | [] => []
  | x :: xs => insertQ x (sortQ xs)

/-- pandas `Series.quantile(q)` with linear interpolation over the present
values; NaN (here `none`) when there is no data. -/
def quantileQ (q : ℚ) (l : List ℚ) : Option ℚ :=
  match l with
  | [] => none
  | _ :: _ =>
    let s := sortQ l
    let n := s.length
    let h : ℚ := q * ((n - 1 : ℕ) : ℚ)
    let i : ℕ := (qfloor h).toNat
    let lo := s.getD i 0
    let hi := s.getD (min (i + 1) (n - 1)) 0
    some (lo + (h - (i : ℚ)) * (hi - lo))

/-- Lexicographic order on character lists (string comparison, by code
point, as Python and pandas compare strings). -/
def listStrLt : List Char → List Char → Bool
  | [], [] => false
  | [], _ :: _ => true
  | _ :: _, [] => false
  | a :: as, b :: bs => if a = b then listStrLt as bs else decide (a < b)

/-- `Series.mode()[0]`: a most frequent value, smallest in string order on
ties (pandas sorts the modes); `none` on an empty column. -/
def modeStr (l : List String) : Option String :=
  (l.eraseDups).foldl
    (fun best v =>
      match best with
      | none => some v
      | some b =>
        if l.count v > l.count b then some v
        else if l.count v = l.count b && listStrLt v.data b.data then some v
        else some b)
    none

/-- pandas `clip(lower, upper)`: lower bound first, then upper bound. -/
def pclip (lo hi x : ℚ) : ℚ := qmin (qmax x lo) hi

/-! ## The cleaning stages (`DataCleaner`) -/

/-- Forward fill of `route_id`, carrying the last non-missing value. -/
def ffillGo (last : Option RVal) : List Row → List Row
  | [] => []
  | r :: rs =>
    if r.route_id = RVal.rna then
      match last with
      | some v => ({ r with route_id := v }) :: ffillGo last rs
      | none => r :: ffillGo none rs
    else r :: ffillGo (some r.route_id) rs

/-- `DataCleaner.handle_missing_values` (FR-3): forward-fill `route_id`,
mode-fill `weather` (default `clear` when no mode exists), median-fill
`passenger_count` (`fillna(NaN)` is a no-op, hence the `none` branch), and
finally drop the rows with a missing GPS coordinate. -/
def handle_missing_values (t : Table) : Table :=
  let t1 := ffillGo none t
  let mw := (modeStr (presentW t1)).getD "clear"
  let t2 := t1.map (fun r => { r with weather := some (r.weather.getD mw) })
  let t3 : Table :=
    match quantileQ (1/2) (presentPC t2) with
    | some med => t2.map (fun r => { r with passenger_count := some (r.passenger_count.getD med) })
    | none => t2
  t3.filter (fun r => r.latitude.isSome && r.longitude.isSome)

/-- The `route_id` policy of `handle_missing_values`, standalone. -/
def mvRouteFfill (t : Table) : Table := ffillGo none t

/-- The `weather` policy of `handle_missing_values`, standalone. -/
def mvWeatherFill (t : Table) : Table :=
  let mw := (modeStr (presentW t)).getD "clear"
  t.map (fun r => { r with weather := some (r.weather.getD mw) })

/-- The `passenger_count` policy of `handle_missing_values`, standalone. -/
def mvPassengerFill (t : Table) : Table :=
  match quantileQ (1/2) (presentPC t) with
  | some med => t.map (fun r => { r with passenger_count := some (r.passenger_count.getD med) })
  | none => t

/-- The GPS row-drop policy of `handle_missing_values`, standalone. -/
def mvGPSDrop (t : Table) : Table :=
  t.filter (fun r => r.latitude.isSome && r.longitude.isSome)

/-- `DataCleaner.standardize_timestamps` (FR-4): `_parse_timestamp` over
both timestamp columns. -/
def standardize_timestamps (t : Table) : Table :=
  t.map (fun r => { r with
    scheduled_time := parse_timestamp r.scheduled_time,
    actual_time := parse_timestamp r.actual_time })

/-- The synonym table of `normalize_weather`, in source (insertion) order. -/
def weatherVariants : List (String × List String) :=
  [("clear", ["clear", "sunny", "sun", "fair"]),
   ("cloudy", ["cloudy", "clouds", "overcast", "cloud"]),
   ("rainy", ["rainy", "rain", "raining", "drizzle", "drizzling"]),
   ("snowy", ["snowy", "snow", "snowing", "sleet"])]

/-- First canonical category whose synonyms match exactly or by substring. -/
def weatherMatch (lv : String) : List (String × List String) → Option String
  | [] => none
  | (std, vars) :: rest =>
    if vars.contains lv || vars.any (fun v => strContains lv.toList v.toList) then some std
    else weatherMatch lv rest

/-- `normalize_weather_value`: NaN and no-match both default to `clear`. -/
def normWeatherVal (v : Option String) : String :=
  match v with
  | none => "clear"
  | some s => (weatherMatch (String.mk (pyStrip (pyLower s.toList))) weatherVariants).getD "clear"

/-- `DataCleaner.normalize_weather` (FR-5). -/
def normalize_weather (t : Table) : Table :=
  t.map (fun r => { r with weather := some (normWeatherVal r.weather) })

/-- First maximal run of decimal digits anywhere in the string
(`re.findall` element 0). -/
def firstDigitRun : List Char → List Char
  | [] => []
  | c :: rest =>
    if c.isDigit then (c :: rest).takeWhile Char.isDigit else firstDigitRun rest

/-- Clamp an extracted route number into the 1..10 range. -/
def clamp110 (n : ℕ) : ℤ := min (max (n : ℤ) 1) 10

/-- `extract_route_number` on the string representation. -/
def routeFromStr (s : String) : ℤ :=
  let ds := firstDigitRun s.toList
  if ds.isEmpty then
    let lv := pyLower s.toList
    if strContains lv "one".toList || strContains lv "1".toList then 1
    else if strContains lv "two".toList || strContains lv "2".toList then 2
    else 1
  else clamp110 (natOfDigits ds)

/-- `extract_route_number`: NaN defaults to route 1, otherwise work on
`str(value)`. -/
def extractRouteNumber : RVal → ℤ
  | RVal.rna => 1
  | RVal.rint n => routeFromStr (toString n)
  | RVal.rstr s => routeFromStr s

/-- `DataCleaner.unify_route_identifiers` (FR-6). -/
def unify_route_identifiers (t : Table) : Table :=
  t.map (fun r => { r with route_id := RVal.rint (extractRouteNumber r.route_id) })

/-- The IQR capping bounds.  When the column is all-NaN both quantiles are
NaN, and Python's `max(0, nan)` keeps `0`, `min(500, nan)` keeps `500`
(the comparison with NaN is false, so the first argument survives). -/
def iqrBounds (q1 q3 : Option ℚ) : ℚ × ℚ :=
  match q1, q3 with
  | some a, some b => (qmax 0 (a - 3/2 * (b - a)), qmin 500 (b + 3/2 * (b - a)))
  | _, _ => (0, 500)

/-- `DataCleaner.treat_outliers` (FR-7): IQR capping of `passenger_count`
followed by the absolute clip into the 0..500 domain; NaN cells pass
through `clip` untouched. -/
def treat_outliers (t : Table) : Table :=
  let col := presentPC t
  let b := iqrBounds (quantileQ (1/4) col) (quantileQ (3/4) col)
  t.map (fun r => { r with
    passenger_count := r.passenger_count.map (fun x => pclip 0 500 (pclip b.1 b.2 x)) })

/-- Latitude outside the valid range (false on NaN, as both pandas
comparisons are false there). -/
def invalidLat (r : Row) : Bool :=
  match r.latitude with
  | some q => decide (q < -90) || decide (90 < q)
  | none => false

/-- Longitude outside the valid range (false on NaN). -/
def invalidLon (r : Row) : Bool :=
  match r.longitude with
  | some q => decide (q < -180) || decide (180 < q)
  | none => false

/-- `DataCleaner.handle_gps_coordinates` (FR-8): keep the rows whose
coordinates are not invalid (the source skips the filter when no row is
invalid, which gives the same table). -/
def handle_gps_coordinates (t : Table) : Table :=
  t.filter (fun r => !invalidLat r && !invalidLon r)

/-- `DataCleaner.clean_all`: the six stages in their fixed order. -/
def clean_all (t : Table) : Table :=
  handle_gps_coordinates (treat_outliers (unify_route_identifiers
    (normalize_weather (standardize_timestamps (handle_missing_values t)))))

/-! ## Feature engineering: delay computation (`FeatureEngineer`) -/

/-- `pd.to_datetime(column, errors='coerce')` on one cell: NaT stays NaT,
an unparseable string becomes NaT (the cleaner has already made the column
uniform, so per-cell flexible parsing models the column call). -/
def pdToDatetimeVal (v : Option String) : Option DT :=
  v.bind (fun s => parseFlexList s.toList)

/-- The per-row body of the `compute_delay_duration` loop followed by the
column-wide `clip(lower=0)`: both timestamps must parse, the signed delay
in minutes must lie within plus-or-minus 525600, and a surviving negative
delay is clipped to zero.  `none` means the row's `delay_minutes` stays
NaN. -/
def rowDelay (r : Row) : Option ℚ :=
  match pdToDatetimeVal r.scheduled_time, pdToDatetimeVal r.actual_time with
  | some s, some a =>
    let dm : ℚ := ((epochDT a - epochDT s : ℤ) : ℚ) / 60
    if -525600 ≤ dm ∧ dm ≤ 525600 then some (qmax 0 dm) else none
  | _, _ => none

/-- The datetime value written back into a timestamp column (the code
overwrites both columns with their parsed form before the loop). -/
def coercedTS (v : Option String) : Option String :=
  (pdToDatetimeVal v).map formatDT

/-- `FeatureEngineer.compute_delay_duration` (FR-9): coerce the timestamp
columns, compute the capped clipped delay per row, then
`dropna(subset=['delay_minutes'])`. -/
def compute_delay_duration (t : Table) : Table :=
  t.filterMap (fun r =>
    (rowDelay r).map (fun d =>
      { r with
        scheduled_time := coercedTS r.scheduled_time,
        actual_time := coercedTS r.actual_time,
        delay_minutes := some d }))

/-! ## The mutation model for the two classes

`DataCleaner.__init__` and `FeatureEngineer.__init__` both run
`self.df = df.copy()`.  To state what that protects, tables live in heap
cells; an object holds the index of its cell; `df.copy()` allocates a
fresh cell with the same contents, and every later `self.df = ...`
assignment writes only the object's own cell.  Had `__init__` aliased the
caller's cell instead, the caller-visible table would be rewritten. -/

/-- The heap of DataFrame objects. -/
abbrev Heap := List Table

/-- Read a cell. -/
def readCell (h : Heap) (i : ℕ) : Table := h.getD i []

/-- Overwrite a cell. -/
def writeCell (h : Heap) (i : ℕ) (t : Table) : Heap := h.set i t

/-- Allocate a fresh cell holding `t`, returning its index. -/
def newCell (h : Heap) (t : Table) : Heap × ℕ := (h ++ [t], h.length)

/-- A cleaner or engineer object: the cell its `self.df` names. -/
structure DFObj where
  df_cell : ℕ
deriving DecidableEq, Repr

/-- `DataCleaner.__init__(df)` / `FeatureEngineer.__init__(df)`:
`self.df = df.copy()` allocates a fresh cell copying the argument. -/
def objCopyOf (h : Heap) (src : ℕ) : Heap × DFObj :=
  let hn := newCell h (readCell h src)
  (hn.1, ⟨hn.2⟩)

/-- `cleaner.clean_all()`: every stage reads and reassigns `self.df`. -/
def runCleanAll (h : Heap) (o : DFObj) : Heap :=
  writeCell h o.df_cell (clean_all (readCell h o.df_cell))

/-- `engineer.compute_delay_duration()` on its own cell. -/
def runComputeDelay (h : Heap) (o : DFObj) : Heap :=
  writeCell h o.df_cell (compute_delay_duration (readCell h o.df_cell))

/-- The pipeline as `main_pipeline` drives it: construct a cleaner over the
raw table's cell, clean, construct an engineer over the cleaner's result,
compute the target.  Returns the final heap and the engineer's cell. -/
def runPipeline (h : Heap) (raw : ℕ) : Heap × ℕ :=
  let hc := objCopyOf h raw
  let h1 := runCleanAll hc.1 hc.2
  let he := objCopyOf h1 hc.2.df_cell
  let h2 := runComputeDelay he.1 he.2
  (h2, he.2.df_cell)

/-! ## Proofs

Everything below is theorems about the definitions above, starting with
helper lemmas for digits, formatting and parsing. -/

theorem qmax_eq (a b : ℚ) : qmax a b = max a b := (max_def a b).symm

theorem qmin_eq (a b : ℚ) : qmin a b = min a b := (min_def a b).symm

theorem daysInYear_le (y : ℕ) : daysInYear y ≤ 366 := by
  unfold daysInYear; split <;> omega

theorem set_ts_self (r : Row) {s a : Option String}
    (hs : r.scheduled_time = s) (ha : r.actual_time = a) :
    { r with scheduled_time := s, actual_time := a } = r := by
  cases r
  simp_all

theorem quantileQ_eq_none {q : ℚ} {l : List ℚ} (h : quantileQ q l = none) : l = [] := by
  cases l with
  | nil => rfl
  | cons a t => simp [quantileQ] at h

theorem presentPC_ffill (last : Option RVal) (l : List Row) :
    presentPC (ffillGo last l) = presentPC l := by
  induction l generalizing last with
  | nil => rfl
  | cons r rs ih =>
    unfold ffillGo
    split
    · split
      · simp [presentPC, List.filterMap_cons] at ih ⊢
        rw [ih]
      · simp [presentPC, List.filterMap_cons] at ih ⊢
        rw [ih]
    · simp [presentPC, List.filterMap_cons] at ih ⊢
      rw [ih]

/-! The missing-value resolver: decomposition and column facts. -/

theorem handle_missing_decomp (t : Table) :
    handle_missing_values t = mvGPSDrop (mvPassengerFill (mvWeatherFill (mvRouteFfill t))) := rfl

theorem presentPC_mvRoute (t : Table) : presentPC (mvRouteFfill t) = presentPC t :=
  presentPC_ffill none t

theorem presentPC_mvWeather (t : Table) : presentPC (mvWeatherFill t) = presentPC t := by
  unfold mvWeatherFill presentPC
  rw [List.filterMap_map]
  rfl

theorem handle_missing_gps {t : Table} {r : Row} (hr : r ∈ handle_missing_values t) :
    r.latitude.isSome = true ∧ r.longitude.isSome = true := by
  rw [handle_missing_decomp] at hr
  unfold mvGPSDrop at hr
  obtain ⟨_, hkeep⟩ := List.mem_filter.mp hr
  simpa [Bool.and_eq_true] using hkeep

theorem handle_missing_weather {t : Table} {r : Row} (hr : r ∈ handle_missing_values t) :
    r.weather.isSome = true := by
  rw [handle_missing_decomp] at hr
  unfold mvGPSDrop at hr
  obtain ⟨hm, _⟩ := List.mem_filter.mp hr
  unfold mvPassengerFill at hm
  split at hm
  · rcases List.mem_map.mp hm with ⟨r1, hr1, rfl⟩
    unfold mvWeatherFill at hr1
    rcases List.mem_map.mp hr1 with ⟨r0, _, rfl⟩
    rfl
  · unfold mvWeatherFill at hm
    rcases List.mem_map.mp hm with ⟨r0, _, rfl⟩
    rfl

theorem handle_missing_pc_all (t : Table) (hne : presentPC t ≠ []) :
    ∀ r ∈ handle_missing_values t, r.passenger_count.isSome = true := by
  rw [handle_missing_decomp]
  have hp : presentPC (mvWeatherFill (mvRouteFfill t)) = presentPC t := by
    rw [presentPC_mvWeather, presentPC_mvRoute]
  unfold mvPassengerFill
  cases hq : quantileQ (1/2) (presentPC (mvWeatherFill (mvRouteFfill t))) with
  | none =>
    exfalso
    exact hne (by rw [← hp]; exact quantileQ_eq_none hq)
  | some med =>
    intro r hr
    unfold mvGPSDrop at hr
    obtain ⟨hm, _⟩ := List.mem_filter.mp hr
    rcases List.mem_map.mp hm with ⟨r0, _, rfl⟩
    rfl

/-! Per-value facts for the category normalizer, the identifier unifier and
the outlier clip. -/

theorem normWeatherVal_canon (v : Option String) :
    normWeatherVal v = "clear" ∨ normWeatherVal v = "cloudy" ∨ normWeatherVal v = "rainy" ∨
      normWeatherVal v = "snowy" := by
  unfold normWeatherVal
  cases v with
  | none => tauto
  | some s =>
    simp only [weatherVariants, weatherMatch]
    split
    · simp
    · split
      · simp
      · split
        · simp
        · split
          · simp
          · simp

theorem clamp110_range (n : ℕ) : 1 ≤ clamp110 n ∧ clamp110 n ≤ 10 := by
  unfold clamp110
  exact ⟨le_min (le_max_right _ _) (by norm_num), min_le_right _ _⟩

theorem routeFromStr_range (s : String) : 1 ≤ routeFromStr s ∧ routeFromStr s ≤ 10 := by
  unfold routeFromStr
  dsimp only
  split
  · split
    · norm_num
    · split
      · norm_num
      · norm_num
  · exact clamp110_range _

theorem extractRouteNumber_range (v : RVal) :
    1 ≤ extractRouteNumber v ∧ extractRouteNumber v ≤ 10 := by
  cases v with
  | rint n => exact routeFromStr_range _
  | rstr s => exact routeFromStr_range _
  | rna => exact ⟨by decide, by decide⟩

theorem pclip_abs (x : ℚ) : 0 ≤ pclip 0 500 x ∧ pclip 0 500 x ≤ 500 := by
  unfold pclip
  rw [qmin_eq, qmax_eq]
  exact ⟨le_min (le_max_right _ _) (by norm_num), min_le_right _ _⟩

/-! The master invariant of the cleaned table. -/

theorem clean_all_inv (t : Table) (r : Row) (hr : r ∈ clean_all t) :
    (r.weather = some "clear" ∨ r.weather = some "cloudy" ∨ r.weather = some "rainy" ∨
      r.weather = some "snowy") ∧
    (∃ n : ℤ, r.route_id = RVal.rint n ∧ 1 ≤ n ∧ n ≤ 10) ∧
    (∃ la : ℚ, r.latitude = some la ∧ -90 ≤ la ∧ la ≤ 90) ∧
    (∃ lon : ℚ, r.longitude = some lon ∧ -180 ≤ lon ∧ lon ≤ 180) ∧
    (∀ x : ℚ, r.passenger_count = some x → 0 ≤ x ∧ x ≤ 500) := by
  unfold clean_all handle_gps_coordinates at hr
  obtain ⟨hr5, hkeep⟩ := List.mem_filter.mp hr
  unfold treat_outliers at hr5
  rcases List.mem_map.mp hr5 with ⟨r4, hr4, rfl⟩
  unfold unify_route_identifiers at hr4
  rcases List.mem_map.mp hr4 with ⟨r3, hr3, rfl⟩
  unfold normalize_weather at hr3
  rcases List.mem_map.mp hr3 with ⟨r2, hr2, rfl⟩
  unfold standardize_timestamps at hr2
  rcases List.mem_map.mp hr2 with ⟨r1, hr1, rfl⟩
  obtain ⟨hlat, hlon⟩ := handle_missing_gps hr1
  rcases Option.isSome_iff_exists.mp hlat with ⟨la, hla⟩
  rcases Option.isSome_iff_exists.mp hlon with ⟨lon, hlon'⟩
  simp only [invalidLat, invalidLon, hla, hlon', Bool.and_eq_true, Bool.not_eq_true'] at hkeep
  refine ⟨?_, ?_, ?_, ?_, ?_⟩
  · rcases normWeatherVal_canon r1.weather with h | h | h | h <;> simp [h]
  · exact ⟨extractRouteNumber r1.route_id, rfl, (extractRouteNumber_range _).1,
      (extractRouteNumber_range _).2⟩
  · refine ⟨la, hla, ?_, ?_⟩
    · have := hkeep.1
      simp only [Bool.or_eq_false_iff, decide_eq_false_iff_not] at this
      linarith [this.1]
    · have := hkeep.1
      simp only [Bool.or_eq_false_iff, decide_eq_false_iff_not] at this
      linarith [this.2]
  · refine ⟨lon, hlon', ?_, ?_⟩
    · have := hkeep.2
      simp only [Bool.or_eq_false_iff, decide_eq_false_iff_not] at this
      linarith [this.1]
    · have := hkeep.2
      simp only [Bool.or_eq_false_iff, decide_eq_false_iff_not] at this
      linarith [this.2]
  · intro x hx
    rcases Option.map_eq_some'.mp hx with ⟨x0, _, rfl⟩
    exact pclip_abs _

/-! Shape of a cleaned row, and column-level facts of the cleaned table. -/

theorem clean_all_mem_decomp {t : Table} {r : Row} (hr : r ∈ clean_all t) :
    ∃ r1 ∈ handle_missing_values t, ∃ f : ℚ → ℚ,
      r = { r1 with
        scheduled_time := parse_timestamp r1.scheduled_time,
        actual_time := parse_timestamp r1.actual_time,
        weather := some (normWeatherVal r1.weather),
        route_id := RVal.rint (extractRouteNumber r1.route_id),
        passenger_count := r1.passenger_count.map f } := by
  unfold clean_all handle_gps_coordinates at hr
  obtain ⟨hr5, _⟩ := List.mem_filter.mp hr
  unfold treat_outliers at hr5
  rcases List.mem_map.mp hr5 with ⟨r4, hr4, rfl⟩
  unfold unify_route_identifiers at hr4
  rcases List.mem_map.mp hr4 with ⟨r3, hr3, rfl⟩
  unfold normalize_weather at hr3
  rcases List.mem_map.mp hr3 with ⟨r2, hr2, rfl⟩
  unfold standardize_timestamps at hr2
  rcases List.mem_map.mp hr2 with ⟨r1, hr1, rfl⟩
  exact ⟨r1, hr1, _, rfl⟩

theorem clean_all_pc_all (t : Table) (hne : presentPC t ≠ []) :
    ∀ r ∈ clean_all t, r.passenger_count.isSome = true := by
  intro r hr
  rcases clean_all_mem_decomp hr with ⟨r1, hr1, f, rfl⟩
  have h1 := handle_missing_pc_all t hne r1 hr1
  rcases Option.isSome_iff_exists.mp h1 with ⟨x, hx⟩
  simp [hx]

/-- C5: `treat_outliers` computes Q1 and Q3 over the present
`passenger_count` values, caps with `max(0, Q1 - 1.5 IQR)` and
`min(500, Q3 + 1.5 IQR)`, clips every present value into those bounds and
then again into the absolute 0..500 domain, never changes the row count,
and on the column -50, 60, 70, 80, 600 computes Q1 = 60, Q3 = 80, bounds
30..110, capping -50 to 30 and 600 to 110. -/
theorem c5_outlier_treater :
    (∀ t : Table, (treat_outliers t).length = t.length) ∧
    (∀ t : Table, treat_outliers t = t.map (fun r => { r with passenger_count := r.passenger_count.map (fun x => pclip 0 500 (pclip (iqrBounds (quantileQ (1/4) (presentPC t)) (quantileQ (3/4) (presentPC t))).1 (iqrBounds (quantileQ (1/4) (presentPC t)) (quantileQ (3/4) (presentPC t))).2 x)) })) ∧
    (∀ lo hi x : ℚ, pclip lo hi x = min (max x lo) hi) ∧
    (∀ a b : ℚ, iqrBounds (some a) (some b) =
      (max 0 (a - 3/2 * (b - a)), min 500 (b + 3/2 * (b - a)))) ∧
    quantileQ (1/4) [-50, 60, 70, 80, 600] = some 60 ∧
    quantileQ (3/4) [-50, 60, 70, 80, 600] = some 80 ∧
    iqrBounds (some 60) (some 80) = (30, 110) ∧
    (treat_outliers
        [{ route_id := RVal.rint 1, scheduled_time := none, actual_time := none,
           weather := some "clear", passenger_count := some (-50), latitude := some 0,
           longitude := some 0 },
         { route_id := RVal.rint 1, scheduled_time := none, actual_time := none,
           weather := some "clear", passenger_count := some 60, latitude := some 0,
           longitude := some 0 },
         { route_id := RVal.rint 1, scheduled_time := none, actual_time := none,
           weather := some "clear", passenger_count := some 70, latitude := some 0,
           longitude := some 0 },
         { route_id := RVal.rint 1, scheduled_time := none, actual_time := none,
           weather := some "clear", passenger_count := some 80, latitude := some 0,
           longitude := some 0 },
         { route_id := RVal.rint 1, scheduled_time := none, actual_time := none,
           weather := some "clear", passenger_count := some 600, latitude := some 0,
           longitude := some 0 }]).map (fun r => r.passenger_count) =
      [some 30, some 60, some 70, some 80, some 110] := by
  refine ⟨?_, ?_, ?_, ?_, by decide, by decide, by decide, by decide⟩
  · intro t
    unfold treat_outliers
    simp
  · intro t
    rfl
  · intro lo hi x
    unfold pclip
    rw [qmin_eq, qmax_eq]
  · intro a b
    show (qmax 0 (a - 3/2 * (b - a)), qmin 500 (b + 3/2 * (b - a))) =
      (max 0 (a - 3/2 * (b - a)), min 500 (b + 3/2 * (b - a)))
    rw [qmin_eq, qmax_eq]

/-- C6: `normalize_weather` lower-cases and trims the raw value, returns
the first canonical category (in the order clear, cloudy, rainy, snowy)
matching exactly or by synonym substring, defaults both absent and
unmatched input to `clear`, maps `Rain` to `rainy` and `foggy` to
`clear`, and only ever produces the four canonical values. -/
theorem c6_category_normalizer :
    (∀ t : Table, normalize_weather t =
      t.map (fun r => { r with weather := some (normWeatherVal r.weather) })) ∧
    normWeatherVal none = "clear" ∧
    (∀ s : String, normWeatherVal (some s) =
      (weatherMatch (String.mk (pyStrip (pyLower s.toList))) weatherVariants).getD "clear") ∧
    (∀ (lv std : String) (vars : List String) (rest : List (String × List String)),
      weatherMatch lv ((std, vars) :: rest) =
        if vars.contains lv || vars.any (fun v => strContains lv.toList v.toList) then some std
        else weatherMatch lv rest) ∧
    weatherVariants =
      [("clear", ["clear", "sunny", "sun", "fair"]),
       ("cloudy", ["cloudy", "clouds", "overcast", "cloud"]),
       ("rainy", ["rainy", "rain", "raining", "drizzle", "drizzling"]),
       ("snowy", ["snowy", "snow", "snowing", "sleet"])] ∧
    normWeatherVal (some "Rain") = "rainy" ∧
    normWeatherVal (some "foggy") = "clear" ∧
    (∀ v : Option String,
      normWeatherVal v ∈ (["clear", "cloudy", "rainy", "snowy"] : List String)) := by
  refine ⟨fun t => rfl, rfl, fun s => rfl, fun lv std vars rest => rfl, rfl,
    by decide, by decide, ?_⟩
  intro v
  rcases normWeatherVal_canon v with h | h | h | h <;> simp [h]

/-- C7: `unify_route_identifiers` maps an absent route to 1, otherwise
extracts the first run of decimal digits of the string representation and
clamps it into 1..10; with no digits it falls back to the one/1 and two/2
keyword checks and otherwise defaults to 1; `Route 12` gives 10, `R3`
gives 3, and every result lies in 1..10. -/
theorem c7_identifier_unifier :
    (∀ t : Table, unify_route_identifiers t =
      t.map (fun r => { r with route_id := RVal.rint (extractRouteNumber r.route_id) })) ∧
    extractRouteNumber RVal.rna = 1 ∧
    (∀ s : String, (firstDigitRun s.toList).isEmpty = false →
      routeFromStr s = clamp110 (natOfDigits (firstDigitRun s.toList))) ∧
    (∀ n : ℕ, clamp110 n = min (max (n : ℤ) 1) 10) ∧
    (∀ s : String, (firstDigitRun s.toList).isEmpty = true →
      routeFromStr s =
        (if strContains (pyLower s.toList) "one".toList ||
            strContains (pyLower s.toList) "1".toList then 1
         else if strContains (pyLower s.toList) "two".toList ||
            strContains (pyLower s.toList) "2".toList then 2
         else 1)) ∧
    extractRouteNumber (RVal.rstr "Route 12") = 10 ∧
    extractRouteNumber (RVal.rstr "R3") = 3 ∧
    (∀ v : RVal, 1 ≤ extractRouteNumber v ∧ extractRouteNumber v ≤ 10) := by
  refine ⟨fun t => rfl, by decide, ?_, fun n => rfl, ?_, by decide, by decide,
    extractRouteNumber_range⟩
  · intro s h
    unfold routeFromStr
    dsimp only
    rw [if_neg (by simp_all)]
  · intro s h
    unfold routeFromStr
    dsimp only
    rw [if_pos h]

/-- C7 witness: the digit-extraction clause applied to `R3`. -/
theorem c7_witness : routeFromStr "R3" = clamp110 (natOfDigits (firstDigitRun "R3".toList)) :=
  c7_identifier_unifier.2.2.1 "R3" (by decide)

/-- C10: `handle_gps_coordinates` keeps exactly the rows that are not
invalid; an absent coordinate makes neither comparison true, so such a row
is retained by this stage, which therefore does not on its own guarantee
that every surviving row carries coordinates. -/
theorem c10_geospatial_validation :
    (∀ t : Table, handle_gps_coordinates t =
      t.filter (fun r => !invalidLat r && !invalidLon r)) ∧
    (∀ r : Row, r.latitude = none → invalidLat r = false) ∧
    (∀ r : Row, r.longitude = none → invalidLon r = false) ∧
    (∀ (r : Row) (q : ℚ), r.latitude = some q →
      (invalidLat r = true ↔ (q < -90 ∨ 90 < q))) ∧
    (∀ (r : Row) (q : ℚ), r.longitude = some q →
      (invalidLon r = true ↔ (q < -180 ∨ 180 < q))) ∧
    (∀ (t : Table) (r : Row), r ∈ handle_gps_coordinates t ↔
      r ∈ t ∧ (!invalidLat r && !invalidLon r) = true) ∧
    handle_gps_coordinates
        [{ route_id := RVal.rint 1, scheduled_time := none, actual_time := none,
           weather := some "clear", passenger_count := some 5, latitude := none,
           longitude := none }] =
      [{ route_id := RVal.rint 1, scheduled_time := none, actual_time := none,
         weather := some "clear", passenger_count := some 5, latitude := none,
         longitude := none }] := by
  refine ⟨fun t => rfl, ?_, ?_, ?_, ?_, ?_, by decide⟩
  · intro r h
    unfold invalidLat
    rw [h]
  · intro r h
    unfold invalidLon
    rw [h]
  · intro r q h
    unfold invalidLat
    rw [h]
    simp
  · intro r q h
    unfold invalidLon
    rw [h]
    simp
  · intro t r
    exact List.mem_filter

/-- C10 witness: the absent-coordinate clause applied to a concrete row. -/
theorem c10_witness :
    invalidLat { route_id := RVal.rint 1, scheduled_time := none, actual_time := none, weather := some "clear", passenger_count := some 5, latitude := none, longitude := some 3, delay_minutes := none } = false :=
  c10_geospatial_validation.2.1 _ rfl

theorem rowDelay_nonneg {r : Row} {d : ℚ} (h : rowDelay r = some d) : 0 ≤ d := by
  unfold rowDelay at h
  cases hs : pdToDatetimeVal r.scheduled_time with
  | none =>
    rw [hs] at h
    cases pdToDatetimeVal r.actual_time <;> cases h
  | some sdt =>
    cases ha : pdToDatetimeVal r.actual_time with
    | none =>
      rw [hs, ha] at h
      cases h
    | some adt =>
      rw [hs, ha] at h
      dsimp only at h
      split at h
      · cases h
        rw [qmax_eq]
        exact le_max_left 0 _
      · cases h

/-- C2: every row surviving `compute_delay_duration` carries a
non-negative `delay_minutes`; a row whose parsed actual instant is earlier
than its scheduled one (within the one-year cap) gets delay zero; a row
with an unparseable timestamp on either side or a delay beyond plus-minus
525600 minutes is dropped; and Scenario C computes 15.0 and 0. -/
theorem c2_delay_computation :
    (∀ (t : Table) (r : Row), r ∈ compute_delay_duration t →
      ∃ d : ℚ, r.delay_minutes = some d ∧ 0 ≤ d) ∧
    (∀ t : Table, compute_delay_duration t = t.filterMap (fun r => (rowDelay r).map (fun d => { r with scheduled_time := coercedTS r.scheduled_time, actual_time := coercedTS r.actual_time, delay_minutes := some d }))) ∧
    (∀ (r : Row) (sdt adt : DT), pdToDatetimeVal r.scheduled_time = some sdt →
      pdToDatetimeVal r.actual_time = some adt → epochDT adt < epochDT sdt →
      -525600 ≤ (((epochDT adt - epochDT sdt : ℤ) : ℚ) / 60) → rowDelay r = some 0) ∧
    (∀ r : Row, pdToDatetimeVal r.scheduled_time = none ∨
      pdToDatetimeVal r.actual_time = none → rowDelay r = none) ∧
    (∀ (r : Row) (sdt adt : DT), pdToDatetimeVal r.scheduled_time = some sdt →
      pdToDatetimeVal r.actual_time = some adt →
      ¬(-525600 ≤ (((epochDT adt - epochDT sdt : ℤ) : ℚ) / 60) ∧
        (((epochDT adt - epochDT sdt : ℤ) : ℚ) / 60) ≤ 525600) → rowDelay r = none) ∧
    compute_delay_duration [{ route_id := RVal.rint 1, scheduled_time := some "2024-01-01 06:00:00", actual_time := some "2024-01-01 06:15:00", weather := some "clear", passenger_count := some 10, latitude := some 0, longitude := some 0 }] =
      [{ route_id := RVal.rint 1, scheduled_time := some "2024-01-01 06:00:00", actual_time := some "2024-01-01 06:15:00", weather := some "clear", passenger_count := some 10, latitude := some 0, longitude := some 0, delay_minutes := some 15 }] ∧
    compute_delay_duration [{ route_id := RVal.rint 1, scheduled_time := some "2024-01-01 06:00:00", actual_time := some "2024-01-01 05:50:00", weather := some "clear", passenger_count := some 10, latitude := some 0, longitude := some 0 }] =
      [{ route_id := RVal.rint 1, scheduled_time := some "2024-01-01 06:00:00", actual_time := some "2024-01-01 05:50:00", weather := some "clear", passenger_count := some 10, latitude := some 0, longitude := some 0, delay_minutes := some 0 }] := by
  refine ⟨?_, fun t => rfl, ?_, ?_, ?_, by decide, by decide⟩
  · intro t r hr
    rcases List.mem_filterMap.mp hr with ⟨r0, _, hmap⟩
    rcases Option.map_eq_some'.mp hmap with ⟨d, hd, rfl⟩
    exact ⟨d, rfl, rowDelay_nonneg hd⟩
  · intro r sdt adt hs ha hlt hge
    have hz : (epochDT adt - epochDT sdt : ℤ) < 0 := by omega
    have hq : ((epochDT adt - epochDT sdt : ℤ) : ℚ) < 0 := by exact_mod_cast hz
    have hneg : (((epochDT adt - epochDT sdt : ℤ) : ℚ) / 60) < 0 :=
      div_neg_of_neg_of_pos hq (by norm_num)
    unfold rowDelay
    rw [hs, ha]
    show (if -525600 ≤ (((epochDT adt - epochDT sdt : ℤ) : ℚ) / 60) ∧
        (((epochDT adt - epochDT sdt : ℤ) : ℚ) / 60) ≤ 525600 then
        some (qmax 0 (((epochDT adt - epochDT sdt : ℤ) : ℚ) / 60)) else none) = some 0
    rw [if_pos ⟨hge, le_trans (le_of_lt hneg) (by norm_num)⟩]
    rw [qmax_eq, max_eq_left (le_of_lt hneg)]
  · intro r h
    rcases h with h | h
    · unfold rowDelay
      rw [h]
    · unfold rowDelay
      rw [h]
      cases pdToDatetimeVal r.scheduled_time <;> rfl
  · intro r sdt adt hs ha hnot
    unfold rowDelay
    rw [hs, ha]
    show (if -525600 ≤ (((epochDT adt - epochDT sdt : ℤ) : ℚ) / 60) ∧
        (((epochDT adt - epochDT sdt : ℤ) : ℚ) / 60) ≤ 525600 then
        some (qmax 0 (((epochDT adt - epochDT sdt : ℤ) : ℚ) / 60)) else none) = none
    rw [if_neg hnot]

/-- C2 witness: the early-arrival clause applied to the Scenario C row. -/
theorem c2_witness :
    rowDelay { route_id := RVal.rint 1, scheduled_time := some "2024-01-01 06:00:00", actual_time := some "2024-01-01 05:50:00", weather := some "clear", passenger_count := some 10, latitude := some 0, longitude := some 0, delay_minutes := none } = some 0 :=
  c2_delay_computation.2.2.1 _ ⟨2024, 1, 1, 6, 0, 0⟩ ⟨2024, 1, 1, 5, 50, 0⟩
    (by decide) (by decide) (by decide) (by decide)

/-- C8: `handle_missing_values` is exactly the fixed composition
route-forward-fill, weather mode-fill (with the `clear` fallback when no
mode is computable), passenger-median-fill, and only then the GPS row
drop, so a row dropped for missing GPS still contributes to the mode and
median used by the earlier imputations; the concrete table shows a
to-be-dropped row's passenger value filling another row first. -/
theorem c8_missing_value_resolver :
    (∀ t : Table, handle_missing_values t =
      mvGPSDrop (mvPassengerFill (mvWeatherFill (mvRouteFfill t)))) ∧
    modeStr [] = none ∧
    (∀ t : Table, presentW t = [] →
      mvWeatherFill t = t.map (fun r => { r with weather := some (r.weather.getD "clear") })) ∧
    (∀ t : Table, mvGPSDrop t =
      t.filter (fun r => r.latitude.isSome && r.longitude.isSome)) ∧
    handle_missing_values
        [{ route_id := RVal.rint 2, scheduled_time := none, actual_time := none, weather := some "clear", passenger_count := none, latitude := some 1, longitude := some 1 },
         { route_id := RVal.rint 3, scheduled_time := none, actual_time := none, weather := some "clear", passenger_count := some 7, latitude := none, longitude := some 1 }] =
      [{ route_id := RVal.rint 2, scheduled_time := none, actual_time := none, weather := some "clear", passenger_count := some 7, latitude := some 1, longitude := some 1 }] := by
  refine ⟨handle_missing_decomp, rfl, ?_, fun t => rfl, by decide⟩
  intro t h
  unfold mvWeatherFill
  rw [h]
  rfl

/-- C8 witness: the mode-fallback clause applied to a table whose weather
column is entirely absent. -/
theorem c8_witness :
    mvWeatherFill [{ route_id := RVal.rint 1, scheduled_time := none, actual_time := none, weather := none, passenger_count := some 3, latitude := some 0, longitude := some 0 }] =
      ([{ route_id := RVal.rint 1, scheduled_time := none, actual_time := none, weather := none, passenger_count := some 3, latitude := some 0, longitude := some 0 }] : Table).map
        (fun r => { r with weather := some (r.weather.getD "clear") }) :=
  c8_missing_value_resolver.2.2.1 _ (by decide)

theorem readCell_write_ne (h : Heap) (i j : ℕ) (t : Table) (hne : i ≠ j) :
    readCell (writeCell h i t) j = readCell h j := by
  unfold readCell writeCell
  simp [List.getD, List.getElem?_set_ne hne]

theorem readCell_append_lt (h : Heap) (t : Table) (j : ℕ) (hj : j < h.length) :
    readCell (h ++ [t]) j = readCell h j := by
  unfold readCell
  simp [List.getD, List.getElem?_append, hj]

/-- C9: both classes copy the caller's DataFrame at construction
(`self.df = df.copy()`) into a fresh heap cell and every stage reassigns
only that cell, so after the whole pipeline runs the caller's original
table is unchanged. -/
theorem c9_caller_table_preserved (h : Heap) (raw : ℕ) (hraw : raw < h.length) :
    readCell (runPipeline h raw).1 raw = readCell h raw := by
  unfold runPipeline objCopyOf newCell runCleanAll runComputeDelay
  dsimp only
  set A := h ++ [readCell h raw] with hA
  set B := writeCell A h.length (clean_all (readCell A h.length)) with hB
  set C := B ++ [readCell B h.length] with hC
  have hBlen : B.length = h.length + 1 := by simp [hB, writeCell, hA]
  have step4 : readCell
      (writeCell C B.length (compute_delay_duration (readCell C B.length))) raw =
      readCell C raw :=
    readCell_write_ne _ _ _ _ (by omega)
  have step3 : readCell C raw = readCell B raw := by
    rw [hC]
    exact readCell_append_lt _ _ _ (by omega)
  have step2 : readCell B raw = readCell A raw := by
    rw [hB]
    exact readCell_write_ne _ _ _ _ (by omega)
  have step1 : readCell A raw = readCell h raw := by
    rw [hA]
    exact readCell_append_lt _ _ _ hraw
  rw [step4, step3, step2, step1]

/-- C9 witness: the preservation applied to a one-cell heap. -/
theorem c9_witness :
    readCell (runPipeline [[{ route_id := RVal.rna, scheduled_time := none, actual_time := none, weather := none, passenger_count := none, latitude := some 0, longitude := some 0 }]] 0).1 0 =
      readCell [[{ route_id := RVal.rna, scheduled_time := none, actual_time := none, weather := none, passenger_count := none, latitude := some 0, longitude := some 0 }]] 0 :=
  c9_caller_table_preserved _ 0 (by decide)

/-- C1 (amended): after `clean_all`, every remaining row has a canonical
weather value, an integer route in 1..10 and in-range coordinates; a
present `passenger_count` lies in 0..500, and whenever the input column
held at least one present value every remaining row's `passenger_count`
is present (when the whole input column is absent it stays absent, which
is the corrected part of the claim). -/
theorem c1_cleaning_invariants (t : Table) (r : Row) (hr : r ∈ clean_all t) :
    (r.weather = some "clear" ∨ r.weather = some "cloudy" ∨ r.weather = some "rainy" ∨
      r.weather = some "snowy") ∧
    (∃ n : ℤ, r.route_id = RVal.rint n ∧ 1 ≤ n ∧ n ≤ 10) ∧
    (∃ la : ℚ, r.latitude = some la ∧ -90 ≤ la ∧ la ≤ 90) ∧
    (∃ lon : ℚ, r.longitude = some lon ∧ -180 ≤ lon ∧ lon ≤ 180) ∧
    (∀ x : ℚ, r.passenger_count = some x → 0 ≤ x ∧ x ≤ 500) ∧
    (presentPC t ≠ [] → r.passenger_count.isSome = true) := by
  obtain ⟨hw, hroute, hla, hlon, hpc⟩ := clean_all_inv t r hr
  exact ⟨hw, hroute, hla, hlon, hpc, fun hne => clean_all_pc_all t hne r hr⟩

/-- C1 counterexample: a row whose `passenger_count` is absent in an
all-absent column survives `clean_all` with `passenger_count` still
absent, so it carries no value in the 0..500 range. -/
theorem c1_counterexample :
    clean_all [{ route_id := RVal.rna, scheduled_time := none, actual_time := none, weather := none, passenger_count := none, latitude := some 0, longitude := some 0 }] =
      [{ route_id := RVal.rint 1, scheduled_time := none, actual_time := none, weather := some "clear", passenger_count := none, latitude := some 0, longitude := some 0 }] ∧
    (∀ x : ℚ, ({ route_id := RVal.rint 1, scheduled_time := none, actual_time := none, weather := some "clear", passenger_count := none, latitude := some 0, longitude := some 0 } : Row).passenger_count ≠ some x) := by
  exact ⟨by decide, by intro x; simp⟩

set_option maxRecDepth 40000 in
/-- C1 witness: the invariants applied to a cleaned one-row table. -/
theorem c1_witness :
    ({ route_id := RVal.rint 3, scheduled_time := some "2024-01-01 06:00:00", actual_time := some "2024-01-01 06:15:00", weather := some "rainy", passenger_count := some 500, latitude := some 10, longitude := some 20, delay_minutes := none } : Row).weather = some "clear" ∨
    ({ route_id := RVal.rint 3, scheduled_time := some "2024-01-01 06:00:00", actual_time := some "2024-01-01 06:15:00", weather := some "rainy", passenger_count := some 500, latitude := some 10, longitude := some 20, delay_minutes := none } : Row).weather = some "cloudy" ∨
    ({ route_id := RVal.rint 3, scheduled_time := some "2024-01-01 06:00:00", actual_time := some "2024-01-01 06:15:00", weather := some "rainy", passenger_count := some 500, latitude := some 10, longitude := some 20, delay_minutes := none } : Row).weather = some "rainy" ∨
    ({ route_id := RVal.rint 3, scheduled_time := some "2024-01-01 06:00:00", actual_time := some "2024-01-01 06:15:00", weather := some "rainy", passenger_count := some 500, latitude := some 10, longitude := some 20, delay_minutes := none } : Row).weather = some "snowy" :=
  (c1_cleaning_invariants
    [{ route_id := RVal.rstr "R3", scheduled_time := some "2024-01-01 06:00:00", actual_time := some "2024-01-01 06:15:00", weather := some "Rain", passenger_count := some 600, latitude := some 10, longitude := some 20, delay_minutes := none }]
    _ (by decide)).1

